import Mathlib

/-!
Shallow embedding of the affinity scoring engine of the synapse bot.

Times are unix epoch milliseconds, modelled as integers; durations in
minutes are rationals (millisecond differences divided by 60000); scores
are real numbers because the time-decay function uses the exponential.
The store snapshot and the evaluation clock are threaded explicitly, so
every database read and every use of the current time is a pure function
of the snapshot and the clock.

The repository contains two variants of the service: the current one
(relative-VC scoring, breakdown field vcRelativeScore, thresholds
100/50/10) and an older one (absolute vcTime scoring, thresholds 15/8/3).
The current variant is embedded without prefix; the older variant's
differing definitions carry the prefix V0.
-/

inductive InteractionKind
  | reaction
  | mention
  | reply
deriving DecidableEq

structure UserInteraction where
  fromUserId : String
  toUserId : String
  guildId : String
  interactionType : InteractionKind
  timestamp : Int
deriving DecidableEq

structure VoiceSession where
  userId : String
  guildId : String
  channelId : String
  channelName : String
  joinedAt : Int
  leftAt : Option Int
deriving DecidableEq

structure OverlapInterval where
  channelName : String
  startTime : Int
  endTime : Int
  durationMinutes : Rat
deriving DecidableEq

structure TimeOverlap where
  startTime : Int
  endTime : Int
  durationMinutes : Rat
deriving DecidableEq

/-- Snapshot of the two collections the affinity service reads. -/
structure Store where
  userInteractions : List UserInteraction
  voiceSessions : List VoiceSession
deriving DecidableEq

/-- Insertion step of the sort used to model the sorted database reads
and the JavaScript array sort. -/
def insertSorted (le : α → α → Bool) (a : α) : List α → List α
  | [] => [a]
  | b :: l => if le a b then a :: b :: l else b :: insertSorted le a l

/-- Insertion sort by a boolean comparison. -/
def sortByBool (le : α → α → Bool) : List α → List α
  | [] => []
  | a :: l => insertSorted le a (sortByBool le l)

/-- Distinct elements of a list, keeping first occurrences in order;
models the key order of a JavaScript Map built by insertion. -/
def firstOccurrences [BEq α] : List α → List α
  | [] => []
  | a :: l => a :: (firstOccurrences l).filter (fun b => !(b == a))

/-- Database read of the interaction history for a directed user pair:
filter, sort newest first, cap at 1000 records. -/
def fetchInteractions (store : Store) (fromUserId toUserId guildId : String) :
    List UserInteraction :=
  (sortByBool (fun a b => decide (b.timestamp ≤ a.timestamp))
    (store.userInteractions.filter (fun i =>
      i.fromUserId == fromUserId && i.toUserId == toUserId && i.guildId == guildId))).take 1000

/-- Database read of one user's voice sessions: filter, sort newest
first, cap at 500 records. -/
def fetchVoiceSessions (store : Store) (userId guildId : String) : List VoiceSession :=
  (sortByBool (fun a b => decide (b.joinedAt ≤ a.joinedAt))
    (store.voiceSessions.filter (fun s =>
      s.userId == userId && s.guildId == guildId))).take 500

/-- calculateTimeOverlap from the service: intersection of two closed
time ranges, with duration zero when they do not properly intersect. -/
def calculateTimeOverlap (start1 end1 start2 end2 : Int) : TimeOverlap :=
  let overlapStart := max start1 start2
  let overlapEnd := min end1 end2
  if overlapStart ≥ overlapEnd then
    { startTime := overlapStart, endTime := overlapEnd, durationMinutes := 0 }
  else
    { startTime := overlapStart, endTime := overlapEnd,
      durationMinutes := ((overlapEnd - overlapStart : Int) : Rat) / (1000 * 60) }

/-- Body of the double loop of findOverlappingSessions: the overlap
interval emitted for one pair of sessions, if any.  An open session's
effective end is the evaluation time. -/
def sessionPairOverlap (now : Int) (session1 session2 : VoiceSession) :
    Option OverlapInterval :=
  if session1.userId = session2.userId then none
  else if session1.channelId ≠ session2.channelId then none
  else
    let session1End := session1.leftAt.getD now
    let session2End := session2.leftAt.getD now
    let overlap := calculateTimeOverlap session1.joinedAt session1End
      session2.joinedAt session2End
    if overlap.durationMinutes > 0 then
      some { channelName := session1.channelName, startTime := overlap.startTime,
             endTime := overlap.endTime, durationMinutes := overlap.durationMinutes }
    else none

/-- The raw pairwise emission loop of findOverlappingSessions. -/
def findOverlapsRaw (now : Int) (user1Sessions user2Sessions : List VoiceSession) :
    List OverlapInterval :=
  user1Sessions.foldr
    (fun s1 acc => user2Sessions.filterMap (fun s2 => sessionPairOverlap now s1 s2) ++ acc) []

/-- Merge of two overlapping intervals inside one channel group: keep the
running start, extend the end, recompute the duration. -/
def mergeTwo (current next : OverlapInterval) : OverlapInterval :=
  { channelName := current.channelName,
    startTime := current.startTime,
    endTime := max current.endTime next.endTime,
    durationMinutes := ((max current.endTime next.endTime - current.startTime : Int) : Rat) / (1000 * 60) }

/-- Left-to-right sweep of mergeOverlappingTimeRanges over one channel
group sorted by start time. -/
def mergeSweep : OverlapInterval → List OverlapInterval → List OverlapInterval
  | current, [] => [current]
  | current, next :: rest =>
    if next.startTime ≤ current.endTime then
      mergeSweep (mergeTwo current next) rest
    else
      current :: mergeSweep next rest

/-- Merge of one channel group (already sorted by start time). -/
def mergeChannelGroup : List OverlapInterval → List OverlapInterval
  | [] => []
  | first :: rest => mergeSweep first rest

/-- Comparison used to sort a channel group by start time. -/
def startLe (a b : OverlapInterval) : Bool := decide (a.startTime ≤ b.startTime)

/-- The per-channel grouping loop of mergeOverlappingTimeRanges: for each
channel name in first-occurrence order, sort that channel's intervals by
start time, sweep-merge them, and append the results. -/
def mergeGroups (overlaps : List OverlapInterval) : List String → List OverlapInterval
  | [] => []
  | c :: cs =>
    mergeChannelGroup (sortByBool startLe
      (overlaps.filter (fun o => o.channelName == c))) ++ mergeGroups overlaps cs

/-- mergeOverlappingTimeRanges from the service: group emitted intervals
by channel name and sweep-merge each group. -/
def mergeOverlappingTimeRanges (overlaps : List OverlapInterval) : List OverlapInterval :=
  if overlaps.isEmpty then overlaps
  else mergeGroups overlaps (firstOccurrences (overlaps.map (fun o => o.channelName)))

/-- findOverlappingSessions of the current variant: raw pairwise
emission followed by the per-channel merge. -/
def findOverlappingSessions (now : Int) (user1Sessions user2Sessions : List VoiceSession) :
    List OverlapInterval :=
  mergeOverlappingTimeRanges (findOverlapsRaw now user1Sessions user2Sessions)

/-- findOverlappingSessions of the older variant, which returns the raw
emitted intervals without merging. -/
def V0_findOverlappingSessions (now : Int) (user1Sessions user2Sessions : List VoiceSession) :
    List OverlapInterval :=
  findOverlapsRaw now user1Sessions user2Sessions

/-- Duration in minutes of a single voice session at evaluation time. -/
def sessionDurationMinutes (now : Int) (s : VoiceSession) : Rat :=
  ((s.leftAt.getD now - s.joinedAt : Int) : Rat) / 60000

/-- getTotalVCTimeForUser: sum of all of a user's session durations in
the guild, open sessions counted up to the evaluation time. -/
def getTotalVCTimeForUser (store : Store) (now : Int) (userId guildId : String) : Rat :=
  ((store.voiceSessions.filter (fun s => s.userId == userId && s.guildId == guildId)).map
    (sessionDurationMinutes now)).sum


structure VCDetails where
  totalMinutes : Rat
  sessionCount : Nat
  averageSessionLength : Rat
  relativeScore : Rat
  topChannels : List (String × Rat)
deriving DecidableEq

/-- Per-channel co-presence totals accumulated over the merged overlap
intervals, in first-occurrence key order. -/
def channelTimeTotals (overlaps : List OverlapInterval) : List (String × Rat) :=
  (firstOccurrences (overlaps.map (fun o => o.channelName))).map
    (fun c => (c, ((overlaps.filter (fun o => o.channelName == c)).map
      (fun o => o.durationMinutes)).sum))

/-- calculateVCTimeWithUser of the current variant: fetch the target
user's sessions, compute merged co-presence intervals, total minutes,
relative share of the from-user's total voice time, and top channels. -/
def calculateVCTimeWithUser (store : Store) (now : Int)
    (fromUserId targetUserId guildId : String)
    (fromUserSessions : List VoiceSession) : VCDetails :=
  let targetUserSessions := fetchVoiceSessions store targetUserId guildId
  let overlappingSessions := findOverlappingSessions now fromUserSessions targetUserSessions
  let totalMinutes := (overlappingSessions.map (fun o => o.durationMinutes)).sum
  let totalVCTime := getTotalVCTimeForUser store now fromUserId guildId
  let relativeScore := if totalVCTime > 0 then totalMinutes / totalVCTime * 100 else 0
  { totalMinutes := totalMinutes,
    sessionCount := overlappingSessions.length,
    averageSessionLength :=
      if overlappingSessions.length > 0 then
        totalMinutes / (overlappingSessions.length : Rat)
      else 0,
    relativeScore := relativeScore,
    topChannels := (sortByBool (fun a b => decide (b.2 ≤ a.2))
      (channelTimeTotals overlappingSessions)).take 5 }

/-- Scoring weights of the current variant (reaction 1, mention 2,
reply 3, relative VC score 50). -/
structure Weights where
  reactions : ℝ
  mentions : ℝ
  replies : ℝ
  vcRelativeScore : ℝ

noncomputable def SCORING_WEIGHTS : Weights :=
  { reactions := 1.0, mentions := 2.0, replies := 3.0, vcRelativeScore := 50.0 }

def TIME_DECAY_DAYS : Rat := 90

/-- The decay weight as a function of the age in days. -/
noncomputable def timeDecayOfAge (daysDiff : Rat) : ℝ :=
  if daysDiff ≤ TIME_DECAY_DAYS then 1.0
  else max 0.1 (Real.exp (-((daysDiff : ℝ) - (TIME_DECAY_DAYS : ℝ)) / 30))

/-- calculateTimeDecay: age in days from the millisecond timestamps,
then the piecewise decay weight. -/
noncomputable def calculateTimeDecay (timestamp now : Int) : ℝ :=
  timeDecayOfAge (((now - timestamp : Int) : Rat) / (1000 * 60 * 60 * 24))

structure ScoreBreakdown where
  reactions : ℝ
  mentions : ℝ
  replies : ℝ
  vcRelativeScore : ℝ

structure InteractionCounts where
  reactions : Nat
  mentions : Nat
  replies : Nat
  vcSessions : Nat
deriving DecidableEq

structure Scores where
  total : ℝ
  breakdown : ScoreBreakdown
  counts : InteractionCounts
  vcDetails : VCDetails

/-- The weighted, decayed sum accumulated for one interaction kind. -/
noncomputable def kindScore (weight : ℝ) (kind : InteractionKind) (now : Int)
    (interactions : List UserInteraction) : ℝ :=
  ((interactions.filter (fun i => i.interactionType == kind)).map
    (fun i => weight * calculateTimeDecay i.timestamp now)).sum

/-- calculateInteractionScores of the current variant: decayed weighted
sums per kind, per-kind counts, and the relative-VC component, whose
contribution is the relative VC percentage times its weight. -/
noncomputable def calculateInteractionScores (store : Store) (now : Int)
    (interactions : List UserInteraction) (voiceSessions : List VoiceSession)
    (targetUserId fromUserId guildId : String) : Scores :=
  let reactions := kindScore SCORING_WEIGHTS.reactions .reaction now interactions
  let mentions := kindScore SCORING_WEIGHTS.mentions .mention now interactions
  let replies := kindScore SCORING_WEIGHTS.replies .reply now interactions
  let vcTimeData := calculateVCTimeWithUser store now fromUserId targetUserId guildId voiceSessions
  let vcRelativeScore := (vcTimeData.relativeScore : ℝ) * SCORING_WEIGHTS.vcRelativeScore
  { total := reactions + mentions + replies + vcRelativeScore,
    breakdown := { reactions := reactions, mentions := mentions, replies := replies,
                   vcRelativeScore := vcRelativeScore },
    counts := { reactions := (interactions.filter (fun i => i.interactionType == .reaction)).length,
                mentions := (interactions.filter (fun i => i.interactionType == .mention)).length,
                replies := (interactions.filter (fun i => i.interactionType == .reply)).length,
                vcSessions := vcTimeData.sessionCount },
    vcDetails := vcTimeData }

structure TimeRange where
  firstInteraction : Option Int
  lastInteraction : Option Int
  daysActive : Int
deriving DecidableEq

/-- JavaScript Math.round on a rational: floor of x + 1/2. -/
def jsRound (x : Rat) : Int := ⌊x + 1 / 2⌋

/-- calculateTimeRange: min and max timestamp of the fetched slice and
the rounded span in days; nulls and zero on an empty slice. -/
def calculateTimeRange (interactions : List UserInteraction) : TimeRange :=
  match interactions with
  | [] => { firstInteraction := none, lastInteraction := none, daysActive := 0 }
  | i :: rest =>
    let ts := (i :: rest).map (fun j => j.timestamp)
    let first := ts.foldl min i.timestamp
    let last := ts.foldl max i.timestamp
    { firstInteraction := some first, lastInteraction := some last,
      daysActive := jsRound (((last - first : Int) : Rat) / (1000 * 60 * 60 * 24)) }

/-- The aggregation feeding the relative-ranking step: counts of the
user's recent interactions (90-day window) grouped by target, sorted
descending. -/
def interactionTargetCounts (store : Store) (now : Int) (userId guildId : String) : List Nat :=
  let recent := store.userInteractions.filter (fun i =>
    i.fromUserId == userId && i.guildId == guildId &&
      decide (now - 90 * 24 * 60 * 60 * 1000 ≤ i.timestamp))
  let targets := firstOccurrences (recent.map (fun i => i.toUserId))
  sortByBool (fun a b => decide (b ≤ a))
    (targets.map (fun t => (recent.filter (fun i => i.toUserId == t)).length))

/-- JavaScript findIndex of the first count at most currentScore:
the index, or -1 when there is none. -/
noncomputable def firstLeIndex (scores : List Nat) (currentScore : ℝ) : Int :=
  match scores.findIdx? (fun (c : Nat) => decide ((c : ℝ) ≤ currentScore)) with
  | some i => (i : Int)
  | none => -1

structure RelativeMetrics where
  relativeScore : ℝ
  rank : Int

/-- calculateRelativeMetrics: position of the current score inside the
descending per-target interaction-count distribution. -/
noncomputable def calculateRelativeMetrics (store : Store) (now : Int)
    (userId guildId : String) (currentScore : ℝ) : RelativeMetrics :=
  let interactionStats := interactionTargetCounts store now userId guildId
  if interactionStats = [] then { relativeScore := 0, rank := 1 }
  else
    let scores := sortByBool (fun a b => decide (b ≤ a)) interactionStats
    let idx := firstLeIndex scores currentScore
    let percentile := (idx : ℝ) / (scores.length : ℝ)
    { relativeScore := min (percentile * 100) 100, rank := idx + 1 }

structure AffinityScore where
  fromUserId : String
  toUserId : String
  guildId : String
  totalScore : ℝ
  breakdown : ScoreBreakdown
  interactionCounts : InteractionCounts
  timeRange : TimeRange
  relativeScore : ℝ
  rank : Int
  vcDetails : VCDetails

/-- calculateAffinity of the current variant, as a pure function of the
store snapshot and the evaluation clock. -/
noncomputable def calculateAffinity (store : Store) (now : Int)
    (fromUserId toUserId guildId : String) : AffinityScore :=
  let interactions := fetchInteractions store fromUserId toUserId guildId
  let voiceSessions := fetchVoiceSessions store fromUserId guildId
  let scores := calculateInteractionScores store now interactions voiceSessions
    toUserId fromUserId guildId
  let timeRange := calculateTimeRange interactions
  let rm := calculateRelativeMetrics store now fromUserId guildId scores.total
  { fromUserId := fromUserId, toUserId := toUserId, guildId := guildId,
    totalScore := scores.total, breakdown := scores.breakdown,
    interactionCounts := scores.counts, timeRange := timeRange,
    relativeScore := rm.relativeScore, rank := rm.rank, vcDetails := scores.vcDetails }

inductive RelationshipKind
  | none
  | weak
  | moderate
  | strong
deriving DecidableEq

/-- determineRelationshipType of the current variant: ordered threshold
table 100 / 50 / 10 on the mutual score; the two directional scores are
accepted but unused. -/
noncomputable def determineRelationshipType (mutualScore score1to2 score2to1 : ℝ) :
    RelationshipKind :=
  if mutualScore ≥ 100 then .strong
  else if mutualScore ≥ 50 then .moderate
  else if mutualScore ≥ 10 then .weak
  else .none

/-- The fields of analyzeRelationship covered by the verified fragment
(the user records and insight strings are display-only). -/
structure AffinityAnalysis where
  affinity : AffinityScore
  reverseAffinity : AffinityScore
  mutualScore : ℝ
  relationshipType : RelationshipKind

/-- analyzeRelationship: both directional scores, their sum, and the
threshold classification. -/
noncomputable def analyzeRelationship (store : Store) (now : Int)
    (user1Id user2Id guildId : String) : AffinityAnalysis :=
  let affinity := calculateAffinity store now user1Id user2Id guildId
  let reverseAffinity := calculateAffinity store now user2Id user1Id guildId
  let mutualScore := affinity.totalScore + reverseAffinity.totalScore
  { affinity := affinity, reverseAffinity := reverseAffinity,
    mutualScore := mutualScore,
    relationshipType := determineRelationshipType mutualScore
      affinity.totalScore reverseAffinity.totalScore }

structure V0_Weights where
  reactions : ℝ
  mentions : ℝ
  replies : ℝ
  vcTime : ℝ

/-- Scoring weights of the older variant (reaction 1, mention 2,
reply 3, vcTime 2 per minute). -/
noncomputable def V0_SCORING_WEIGHTS : V0_Weights :=
  { reactions := 1.0, mentions := 2.0, replies := 3.0, vcTime := 2.0 }

/-- calculateTimeDecay of the older variant (same body as the current
one). -/
noncomputable def V0_calculateTimeDecay (timestamp now : Int) : ℝ :=
  timeDecayOfAge (((now - timestamp : Int) : Rat) / (1000 * 60 * 60 * 24))

/-- calculateVCTimeWithUser of the older variant: same computation, but
over the unmerged raw overlap list. -/
def V0_calculateVCTimeWithUser (store : Store) (now : Int)
    (fromUserId targetUserId guildId : String)
    (fromUserSessions : List VoiceSession) : VCDetails :=
  let targetUserSessions := fetchVoiceSessions store targetUserId guildId
  let overlappingSessions := V0_findOverlappingSessions now fromUserSessions targetUserSessions
  let totalMinutes := (overlappingSessions.map (fun o => o.durationMinutes)).sum
  let totalVCTime := getTotalVCTimeForUser store now fromUserId guildId
  let relativeScore := if totalVCTime > 0 then totalMinutes / totalVCTime * 100 else 0
  { totalMinutes := totalMinutes,
    sessionCount := overlappingSessions.length,
    averageSessionLength :=
      if overlappingSessions.length > 0 then
        totalMinutes / (overlappingSessions.length : Rat)
      else 0,
    relativeScore := relativeScore,
    topChannels := (sortByBool (fun a b => decide (b.2 ≤ a.2))
      (channelTimeTotals overlappingSessions)).take 5 }

structure V0_ScoreBreakdown where
  reactions : ℝ
  mentions : ℝ
  replies : ℝ
  vcTime : ℝ

structure V0_Scores where
  total : ℝ
  breakdown : V0_ScoreBreakdown
  counts : InteractionCounts
  vcDetails : VCDetails

/-- The weighted, decayed sum of one interaction kind in the older
variant. -/
noncomputable def V0_kindScore (weight : ℝ) (kind : InteractionKind) (now : Int)
    (interactions : List UserInteraction) : ℝ :=
  ((interactions.filter (fun i => i.interactionType == kind)).map
    (fun i => weight * V0_calculateTimeDecay i.timestamp now)).sum

/-- calculateInteractionScores of the older variant: identical text
accumulation, but an absolute capped vcTime component
min(relativeShare * 2000, 20) * weight. -/
noncomputable def V0_calculateInteractionScores (store : Store) (now : Int)
    (interactions : List UserInteraction) (voiceSessions : List VoiceSession)
    (targetUserId fromUserId guildId : String) : V0_Scores :=
  let reactions := V0_kindScore V0_SCORING_WEIGHTS.reactions .reaction now interactions
  let mentions := V0_kindScore V0_SCORING_WEIGHTS.mentions .mention now interactions
  let replies := V0_kindScore V0_SCORING_WEIGHTS.replies .reply now interactions
  let vcTimeData := V0_calculateVCTimeWithUser store now fromUserId targetUserId guildId voiceSessions
  let totalVCTime := getTotalVCTimeForUser store now fromUserId guildId
  let vcRelativeShare : Rat := if totalVCTime > 0 then vcTimeData.totalMinutes / totalVCTime else 0
  let vcTime := ((min (vcRelativeShare * 2000) 20 : Rat) : ℝ) * V0_SCORING_WEIGHTS.vcTime
  { total := reactions + mentions + replies + vcTime,
    breakdown := { reactions := reactions, mentions := mentions, replies := replies,
                   vcTime := vcTime },
    counts := { reactions := (interactions.filter (fun i => i.interactionType == .reaction)).length,
                mentions := (interactions.filter (fun i => i.interactionType == .mention)).length,
                replies := (interactions.filter (fun i => i.interactionType == .reply)).length,
                vcSessions := vcTimeData.sessionCount },
    vcDetails := vcTimeData }

/-- determineRelationshipType of the older variant: thresholds 15 / 8 / 3. -/
noncomputable def V0_determineRelationshipType (mutualScore score1to2 score2to1 : ℝ) :
    RelationshipKind :=
  if mutualScore ≥ 15 then .strong
  else if mutualScore ≥ 8 then .moderate
  else if mutualScore ≥ 3 then .weak
  else .none

/-! General lemmas about the list helpers. -/

lemma mem_insertSorted {le : α → α → Bool} {a b : α} {l : List α} :
    b ∈ insertSorted le a l ↔ b = a ∨ b ∈ l := by
  induction l with
  | nil => simp [insertSorted]
  | cons c t ih =>
    simp only [insertSorted]
    split
    · simp [or_comm, or_left_comm]
    · simp only [List.mem_cons, ih]
      tauto

lemma mem_sortByBool {le : α → α → Bool} {a : α} {l : List α} :
    a ∈ sortByBool le l ↔ a ∈ l := by
  induction l with
  | nil => simp [sortByBool]
  | cons c t ih =>
    simp only [sortByBool, mem_insertSorted, List.mem_cons, ih]

lemma insertSorted_startLe_pairwise {a : OverlapInterval} {l : List OverlapInterval}
    (hl : l.Pairwise (fun x y => x.startTime ≤ y.startTime)) :
    (insertSorted startLe a l).Pairwise (fun x y => x.startTime ≤ y.startTime) := by
  induction l with
  | nil => simp [insertSorted]
  | cons b t ih =>
    rcases List.pairwise_cons.mp hl with ⟨hb, ht⟩
    simp only [insertSorted, startLe]
    split
    · rename_i h
      have hab : a.startTime ≤ b.startTime := of_decide_eq_true h
      refine List.pairwise_cons.mpr ⟨?_, hl⟩
      intro y hy
      rcases List.mem_cons.mp hy with rfl | hy
      · exact hab
      · exact hab.trans (hb y hy)
    · rename_i h
      have hba : b.startTime ≤ a.startTime :=
        le_of_lt (lt_of_not_le (fun hc => h (decide_eq_true hc)))
      refine List.pairwise_cons.mpr ⟨?_, ih ht⟩
      intro y hy
      rcases mem_insertSorted.mp hy with rfl | hy
      · exact hba
      · exact hb y hy

lemma sortByBool_startLe_pairwise (l : List OverlapInterval) :
    (sortByBool startLe l).Pairwise (fun x y => x.startTime ≤ y.startTime) := by
  induction l with
  | nil => simp [sortByBool]
  | cons a t ih => exact insertSorted_startLe_pairwise ih

lemma mem_firstOccurrences [BEq α] [LawfulBEq α] {a : α} {l : List α} :
    a ∈ firstOccurrences l ↔ a ∈ l := by
  induction l with
  | nil => simp [firstOccurrences]
  | cons b t ih =>
    simp only [firstOccurrences, List.mem_cons, List.mem_filter, ih, Bool.not_eq_true',
      beq_eq_false_iff_ne, ne_eq]
    by_cases hab : a = b
    · simp [hab]
    · simp [hab]

lemma firstOccurrences_nodup [BEq α] [LawfulBEq α] (l : List α) :
    (firstOccurrences l).Nodup := by
  induction l with
  | nil => simp [firstOccurrences]
  | cons b t ih =>
    refine List.nodup_cons.mpr ⟨?_, List.Nodup.filter _ ih⟩
    intro hmem
    have := (List.mem_filter.mp hmem).2
    simp at this

/-! Lemmas about the per-channel sweep merge. -/

lemma mergeTwo_startTime (c n : OverlapInterval) : (mergeTwo c n).startTime = c.startTime := rfl

lemma mergeTwo_channelName (c n : OverlapInterval) : (mergeTwo c n).channelName = c.channelName := rfl

lemma mergeTwo_ok {c : OverlapInterval} (n : OverlapInterval) (hc : c.startTime ≤ c.endTime) :
    (mergeTwo c n).startTime ≤ (mergeTwo c n).endTime ∧ 0 ≤ (mergeTwo c n).durationMinutes := by
  have hse : c.startTime ≤ max c.endTime n.endTime := hc.trans (le_max_left _ _)
  constructor
  · simpa [mergeTwo] using hse
  · have : (0 : Rat) ≤ ((max c.endTime n.endTime - c.startTime : Int) : Rat) := by
      exact_mod_cast sub_nonneg.mpr hse
    simpa [mergeTwo] using div_nonneg this (by norm_num)

lemma mergeSweep_spec :
    ∀ (l : List OverlapInterval) (cur : OverlapInterval),
      l.Pairwise (fun x y => x.startTime ≤ y.startTime) →
      (∀ o ∈ l, cur.startTime ≤ o.startTime) →
      cur.startTime ≤ cur.endTime → 0 ≤ cur.durationMinutes →
      (∀ o ∈ l, o.startTime ≤ o.endTime ∧ 0 ≤ o.durationMinutes) →
      (mergeSweep cur l).Pairwise (fun x y => x.endTime < y.startTime) ∧
      (∀ o ∈ mergeSweep cur l,
        (o.startTime ≤ o.endTime ∧ 0 ≤ o.durationMinutes) ∧ cur.startTime ≤ o.startTime) := by
  intro l
  induction l with
  | nil =>
    intro cur _ _ hse hdn _
    refine ⟨by simp [mergeSweep], ?_⟩
    intro o ho
    simp only [mergeSweep, List.mem_singleton] at ho
    subst ho
    exact ⟨⟨hse, hdn⟩, le_refl _⟩
  | cons next rest ih =>
    intro cur hp hstart hse hdn hok
    rcases List.pairwise_cons.mp hp with ⟨hnext, hrest⟩
    rcases hok next (List.mem_cons_self _ _) with ⟨hnse, hndn⟩
    simp only [mergeSweep]
    split
    · rename_i hmerge
      have hm := mergeTwo_ok next hse
      have := ih (mergeTwo cur next) hrest
        (fun o ho => by
          rw [mergeTwo_startTime]
          exact hstart o (List.mem_cons_of_mem _ ho))
        hm.1 hm.2 (fun o ho => hok o (List.mem_cons_of_mem _ ho))
      refine ⟨this.1, ?_⟩
      intro o ho
      rcases this.2 o ho with ⟨hq, hs⟩
      rw [mergeTwo_startTime] at hs
      exact ⟨hq, hs⟩
    · rename_i hmerge
      have hlt : cur.endTime < next.startTime := lt_of_not_le hmerge
      have hcn : cur.startTime ≤ next.startTime := hstart next (List.mem_cons_self _ _)
      have := ih next hrest hnext hnse hndn
        (fun o ho => hok o (List.mem_cons_of_mem _ ho))
      refine ⟨List.pairwise_cons.mpr ⟨?_, this.1⟩, ?_⟩
      · intro o ho
        exact lt_of_lt_of_le hlt (this.2 o ho).2
      · intro o ho
        rcases List.mem_cons.mp ho with rfl | ho
        · exact ⟨⟨hse, hdn⟩, le_refl _⟩
        · rcases this.2 o ho with ⟨hq, hs⟩
          exact ⟨hq, hcn.trans hs⟩

lemma mergeChannelGroup_spec (l : List OverlapInterval)
    (hsorted : l.Pairwise (fun x y => x.startTime ≤ y.startTime))
    (hok : ∀ o ∈ l, o.startTime ≤ o.endTime ∧ 0 ≤ o.durationMinutes) :
    (mergeChannelGroup l).Pairwise (fun x y => x.endTime < y.startTime) ∧
    (∀ o ∈ mergeChannelGroup l, o.startTime ≤ o.endTime ∧ 0 ≤ o.durationMinutes) := by
  cases l with
  | nil => simp [mergeChannelGroup]
  | cons first rest =>
    rcases List.pairwise_cons.mp hsorted with ⟨hfirst, hrest⟩
    rcases hok first (List.mem_cons_self _ _) with ⟨hse, hdn⟩
    have := mergeSweep_spec rest first hrest hfirst hse hdn
      (fun o ho => hok o (List.mem_cons_of_mem _ ho))
    exact ⟨this.1, fun o ho => (this.2 o ho).1⟩

lemma mergeSweep_channel :
    ∀ (l : List OverlapInterval) (cur : OverlapInterval) (c : String),
      cur.channelName = c → (∀ o ∈ l, o.channelName = c) →
      ∀ o ∈ mergeSweep cur l, o.channelName = c := by
  intro l
  induction l with
  | nil =>
    intro cur c hc _ o ho
    simp only [mergeSweep, List.mem_singleton] at ho
    subst ho
    exact hc
  | cons next rest ih =>
    intro cur c hc hl o ho
    simp only [mergeSweep] at ho
    split at ho
    · exact ih (mergeTwo cur next) c (by rw [mergeTwo_channelName]; exact hc)
        (fun x hx => hl x (List.mem_cons_of_mem _ hx)) o ho
    · rcases List.mem_cons.mp ho with rfl | ho
      · exact hc
      · exact ih next c (hl next (List.mem_cons_self _ _))
          (fun x hx => hl x (List.mem_cons_of_mem _ hx)) o ho

lemma mergeChannelGroup_channel (l : List OverlapInterval) (c : String)
    (h : ∀ o ∈ l, o.channelName = c) :
    ∀ o ∈ mergeChannelGroup l, o.channelName = c := by
  cases l with
  | nil => simp [mergeChannelGroup]
  | cons first rest =>
    exact mergeSweep_channel rest first c (h first (List.mem_cons_self _ _))
      (fun x hx => h x (List.mem_cons_of_mem _ hx))

/-- The channel group produced for channel c contains only intervals of
channel c. -/
lemma group_channel (overlaps : List OverlapInterval) (c : String) :
    ∀ o ∈ mergeChannelGroup (sortByBool startLe
      (overlaps.filter (fun o => o.channelName == c))), o.channelName = c := by
  apply mergeChannelGroup_channel
  intro o ho
  have hmem := mem_sortByBool.mp ho
  have := (List.mem_filter.mp hmem).2
  exact eq_of_beq this

lemma group_ok (overlaps : List OverlapInterval)
    (hok : ∀ o ∈ overlaps, o.startTime ≤ o.endTime ∧ 0 ≤ o.durationMinutes) (c : String) :
    ∀ o ∈ mergeChannelGroup (sortByBool startLe
      (overlaps.filter (fun o => o.channelName == c))), o.startTime ≤ o.endTime ∧ 0 ≤ o.durationMinutes := by
  have := mergeChannelGroup_spec (sortByBool startLe (overlaps.filter (fun o => o.channelName == c)))
    (sortByBool_startLe_pairwise _)
    (fun o ho => hok o (List.mem_filter.mp (mem_sortByBool.mp ho)).1)
  exact this.2

lemma group_pairwise (overlaps : List OverlapInterval)
    (hok : ∀ o ∈ overlaps, o.startTime ≤ o.endTime ∧ 0 ≤ o.durationMinutes) (c : String) :
    (mergeChannelGroup (sortByBool startLe
      (overlaps.filter (fun o => o.channelName == c)))).Pairwise
        (fun x y => x.endTime < y.startTime) := by
  have := mergeChannelGroup_spec (sortByBool startLe (overlaps.filter (fun o => o.channelName == c)))
    (sortByBool_startLe_pairwise _)
    (fun o ho => hok o (List.mem_filter.mp (mem_sortByBool.mp ho)).1)
  exact this.1

/-- Filtering the concatenated per-channel merge output for one channel
picks out exactly that channel's merged group. -/
lemma mergeGroups_filter (overlaps : List OverlapInterval) :
    ∀ (chans : List String), chans.Nodup → ∀ c : String,
      (mergeGroups overlaps chans).filter (fun o => o.channelName == c) =
        if c ∈ chans then
          mergeChannelGroup (sortByBool startLe (overlaps.filter (fun o => o.channelName == c)))
        else [] := by
  intro chans
  induction chans with
  | nil => intro _ c; simp [mergeGroups]
  | cons c0 cs ih =>
    intro hnd c
    rcases List.nodup_cons.mp hnd with ⟨hc0, hcs⟩
    simp only [mergeGroups, List.filter_append]
    by_cases hc : c = c0
    · subst hc
      have h1 : (mergeChannelGroup (sortByBool startLe
          (overlaps.filter (fun o => o.channelName == c)))).filter
            (fun o => o.channelName == c) =
          mergeChannelGroup (sortByBool startLe (overlaps.filter (fun o => o.channelName == c))) := by
        apply List.filter_eq_self.mpr
        intro o ho
        exact beq_iff_eq.mpr (group_channel overlaps c o ho)
      rw [h1, ih hcs c, if_neg hc0, if_pos (List.mem_cons_self _ _), List.append_nil]
    · have h1 : (mergeChannelGroup (sortByBool startLe
          (overlaps.filter (fun o => o.channelName == c0)))).filter
            (fun o => o.channelName == c) = [] := by
        apply List.filter_eq_nil_iff.mpr
        intro o ho
        rw [group_channel overlaps c0 o ho]
        simp [(Ne.symm hc : c0 ≠ c)]
      rw [h1, ih hcs c, List.nil_append]
      have : (c ∈ c0 :: cs) = (c ∈ cs) := by
        simp [List.mem_cons, hc]
      by_cases hmem : c ∈ cs
      · rw [if_pos hmem, if_pos (List.mem_cons_of_mem _ hmem)]
      · rw [if_neg hmem, if_neg (by simp [hc, hmem])]

lemma mergeGroups_ok (overlaps : List OverlapInterval)
    (hok : ∀ o ∈ overlaps, o.startTime ≤ o.endTime ∧ 0 ≤ o.durationMinutes) :
    ∀ (chans : List String), ∀ o ∈ mergeGroups overlaps chans,
      o.startTime ≤ o.endTime ∧ 0 ≤ o.durationMinutes := by
  intro chans
  induction chans with
  | nil => simp [mergeGroups]
  | cons c0 cs ih =>
    intro o ho
    rcases List.mem_append.mp ho with h | h
    · exact group_ok overlaps hok c0 o h
    · exact ih o h

/-- A channel name outside the grouping keys has no intervals at all. -/
lemma filter_channel_eq_nil (overlaps : List OverlapInterval) (c : String)
    (hc : c ∉ firstOccurrences (overlaps.map (fun o => o.channelName))) :
    overlaps.filter (fun o => o.channelName == c) = [] := by
  apply List.filter_eq_nil_iff.mpr
  intro o ho
  intro hbeq
  apply hc
  rw [mem_firstOccurrences]
  exact List.mem_map.mpr ⟨o, ho, eq_of_beq hbeq⟩

/-- Characterization of the per-pair emission step: an interval is
emitted exactly for distinct users in the same channel whose effective
time ranges properly intersect. -/
lemma sessionPairOverlap_eq_some (now : Int) (s1 s2 : VoiceSession) (o : OverlapInterval) :
    sessionPairOverlap now s1 s2 = some o ↔
      s1.userId ≠ s2.userId ∧ s1.channelId = s2.channelId ∧
      max s1.joinedAt s2.joinedAt < min (s1.leftAt.getD now) (s2.leftAt.getD now) ∧
      o = { channelName := s1.channelName,
            startTime := max s1.joinedAt s2.joinedAt,
            endTime := min (s1.leftAt.getD now) (s2.leftAt.getD now),
            durationMinutes := ((min (s1.leftAt.getD now) (s2.leftAt.getD now) -
              max s1.joinedAt s2.joinedAt : Int) : Rat) / (1000 * 60) } := by
  by_cases h1 : s1.userId = s2.userId
  · simp [sessionPairOverlap, h1]
  · by_cases h2 : s1.channelId = s2.channelId
    · by_cases h3 : max s1.joinedAt s2.joinedAt < min (s1.leftAt.getD now) (s2.leftAt.getD now)
      · have hne : ¬(max s1.joinedAt s2.joinedAt ≥ min (s1.leftAt.getD now) (s2.leftAt.getD now)) :=
          not_le.mpr h3
        have hpos : (0 : Rat) < ((min (s1.leftAt.getD now) (s2.leftAt.getD now) -
            max s1.joinedAt s2.joinedAt : Int) : Rat) / (1000 * 60) := by
          apply div_pos
          · exact_mod_cast sub_pos.mpr h3
          · norm_num
        have heq : sessionPairOverlap now s1 s2 = some
            { channelName := s1.channelName,
              startTime := max s1.joinedAt s2.joinedAt,
              endTime := min (s1.leftAt.getD now) (s2.leftAt.getD now),
              durationMinutes := ((min (s1.leftAt.getD now) (s2.leftAt.getD now) -
                max s1.joinedAt s2.joinedAt : Int) : Rat) / (1000 * 60) } := by
          simp only [sessionPairOverlap, calculateTimeOverlap, if_neg h1,
            if_neg (not_not_intro h2), if_neg hne]
          simp only [gt_iff_lt, hpos, if_true]
        rw [heq]
        simp only [Option.some.injEq, h1, h2, h3, ne_eq, not_false_iff, true_and]
        exact eq_comm
      · have hge : max s1.joinedAt s2.joinedAt ≥ min (s1.leftAt.getD now) (s2.leftAt.getD now) :=
          not_lt.mp h3
        have heq : sessionPairOverlap now s1 s2 = none := by
          simp only [sessionPairOverlap, calculateTimeOverlap, if_neg h1,
            if_neg (not_not_intro h2), if_pos hge]
          simp
        rw [heq]
        simp [h3]
    · simp [sessionPairOverlap, h1, h2]

lemma mem_findOverlapsRaw {now : Int} {l1 l2 : List VoiceSession} {o : OverlapInterval} :
    o ∈ findOverlapsRaw now l1 l2 ↔
      ∃ s1 ∈ l1, ∃ s2 ∈ l2, sessionPairOverlap now s1 s2 = some o := by
  induction l1 with
  | nil => simp [findOverlapsRaw]
  | cons s t ih =>
    rw [show findOverlapsRaw now (s :: t) l2 =
      (l2.filterMap (fun s2 => sessionPairOverlap now s s2)) ++ findOverlapsRaw now t l2 from rfl]
    simp only [List.mem_append, List.mem_filterMap, ih, List.mem_cons]
    constructor
    · rintro (⟨s2, hs2, hsome⟩ | ⟨s1, hs1, hrest⟩)
      · exact ⟨s, Or.inl rfl, s2, hs2, hsome⟩
      · exact ⟨s1, Or.inr hs1, hrest⟩
    · rintro ⟨s1, (rfl | hs1), s2, hs2, hsome⟩
      · exact Or.inl ⟨s2, hs2, hsome⟩
      · exact Or.inr ⟨s1, hs1, s2, hs2, hsome⟩

/-- Every raw emitted interval has a proper positive span and carries the
span-over-60000 duration. -/
lemma findOverlapsRaw_wf (now : Int) (l1 l2 : List VoiceSession) :
    ∀ o ∈ findOverlapsRaw now l1 l2,
      o.startTime < o.endTime ∧
      o.durationMinutes = ((o.endTime - o.startTime : Int) : Rat) / (1000 * 60) := by
  intro o ho
  rcases mem_findOverlapsRaw.mp ho with ⟨s1, _, s2, _, hsome⟩
  rcases (sessionPairOverlap_eq_some now s1 s2 o).mp hsome with ⟨_, _, hlt, rfl⟩
  exact ⟨hlt, rfl⟩

/-! Lemmas about the time-decay function. -/

lemma timeDecayOfAge_le_one (a : Rat) : timeDecayOfAge a ≤ 1 := by
  unfold timeDecayOfAge TIME_DECAY_DAYS
  split_ifs with h
  · norm_num
  · have ha : (90 : ℝ) < (a : ℝ) := by
      have : (90 : Rat) < a := lt_of_not_le h
      exact_mod_cast this
    have hexp : Real.exp (-((a : ℝ) - ((90 : Rat) : ℝ)) / 30) ≤ 1 := by
      have hle : -((a : ℝ) - ((90 : Rat) : ℝ)) / 30 ≤ 0 := by
        rw [Rat.cast_ofNat]
        nlinarith
      calc Real.exp (-((a : ℝ) - ((90 : Rat) : ℝ)) / 30) ≤ Real.exp 0 :=
            Real.exp_le_exp.mpr hle
        _ = 1 := Real.exp_zero
    exact max_le (by norm_num) hexp

lemma timeDecayOfAge_ge (a : Rat) : (0.1 : ℝ) ≤ timeDecayOfAge a := by
  unfold timeDecayOfAge TIME_DECAY_DAYS
  split_ifs with h
  · norm_num
  · exact le_max_left _ _

lemma timeDecayOfAge_anti {a1 a2 : Rat} (h : a1 ≤ a2) :
    timeDecayOfAge a2 ≤ timeDecayOfAge a1 := by
  unfold timeDecayOfAge TIME_DECAY_DAYS
  split_ifs with h2 h1 h1
  · norm_num
  · exact absurd (h.trans h2) h1
  · have ha : (90 : Rat) < a2 := lt_of_not_le h2
    have ha' : (90 : ℝ) < (a2 : ℝ) := by exact_mod_cast ha
    have hexp : Real.exp (-((a2 : ℝ) - ((90 : Rat) : ℝ)) / 30) ≤ 1 := by
      have hle : -((a2 : ℝ) - ((90 : Rat) : ℝ)) / 30 ≤ 0 := by
        rw [Rat.cast_ofNat]
        nlinarith
      calc Real.exp (-((a2 : ℝ) - ((90 : Rat) : ℝ)) / 30) ≤ Real.exp 0 :=
            Real.exp_le_exp.mpr hle
        _ = 1 := Real.exp_zero
    exact max_le (by norm_num) (hexp.trans (by norm_num))
  · apply max_le_max (le_refl _)
    apply Real.exp_le_exp.mpr
    have : (a1 : ℝ) ≤ (a2 : ℝ) := by exact_mod_cast h
    have h90 : ((90 : Rat) : ℝ) = (90 : ℝ) := by norm_num
    rw [h90]
    linarith

/-- Order of the relationship bands: none < weak < moderate < strong. -/
def typeLevel : RelationshipKind → Nat
  | .none => 0
  | .weak => 1
  | .moderate => 2
  | .strong => 3

/-- If some element satisfies the predicate, findIdx? returns an index
inside the list. -/
lemma findIdx?_of_exists {p : α → Bool} :
    ∀ {l : List α}, (∃ a ∈ l, p a = true) →
      ∃ i, l.findIdx? p = some i ∧ i < l.length := by
  intro l
  induction l with
  | nil => simp
  | cons a t ih =>
    rintro ⟨b, hb, hpb⟩
    by_cases hpa : p a
    · exact ⟨0, by simp [List.findIdx?_cons, hpa], by simp⟩
    · rcases List.mem_cons.mp hb with rfl | hb
      · exact absurd hpb (by simp [hpa])
      · rcases ih ⟨b, hb, hpb⟩ with ⟨i, hi, hlen⟩
        refine ⟨i + 1, ?_, by simpa using Nat.succ_lt_succ hlen⟩
        simp [List.findIdx?_cons, hpa, hi]

/-! Concrete scenarios used by the claims. -/

/-- C1 scenario: user A spends 100 minutes in voice, 20 of them with B. -/
def c1SessionA : VoiceSession :=
  { userId := "A", guildId := "g", channelId := "c1", channelName := "General",
    joinedAt := 0, leftAt := some 6000000 }

def c1SessionB : VoiceSession :=
  { userId := "B", guildId := "g", channelId := "c1", channelName := "General",
    joinedAt := 0, leftAt := some 1200000 }

def c1Store : Store := { userInteractions := [], voiceSessions := [c1SessionA, c1SessionB] }

/-- C2 scenario: A has five recent mentions of C and none of B. -/
def c2Interaction (ts : Int) : UserInteraction :=
  { fromUserId := "A", toUserId := "C", guildId := "g", interactionType := .mention,
    timestamp := ts }

def c2Store : Store :=
  { userInteractions := [c2Interaction 1, c2Interaction 2, c2Interaction 3,
      c2Interaction 4, c2Interaction 5],
    voiceSessions := [] }

/-- C3 scenario: emitted intervals [0,60], [10,70], [20,40] minutes in one
channel, given in milliseconds. -/
def exMergeA : OverlapInterval :=
  { channelName := "General", startTime := 0, endTime := 3600000, durationMinutes := 60 }

def exMergeB : OverlapInterval :=
  { channelName := "General", startTime := 600000, endTime := 4200000, durationMinutes := 60 }

def exMergeC : OverlapInterval :=
  { channelName := "General", startTime := 1200000, endTime := 2400000, durationMinutes := 20 }

/-- C5 scenario: sessions [0,30] and [10,40] minutes in the same channel
and a same-times session in another channel. -/
def exSessionA : VoiceSession :=
  { userId := "A", guildId := "g", channelId := "c1", channelName := "General",
    joinedAt := 0, leftAt := some 1800000 }

def exSessionB : VoiceSession :=
  { userId := "B", guildId := "g", channelId := "c1", channelName := "General",
    joinedAt := 600000, leftAt := some 2400000 }

def exSessionBx : VoiceSession :=
  { userId := "B", guildId := "g", channelId := "c2", channelName := "Gaming",
    joinedAt := 600000, leftAt := some 2400000 }

/-- C6 witness scenario: a store with no records at all. -/
def emptyStore : Store := { userInteractions := [], voiceSessions := [] }

/-- C8 scenario: a session that ends before it starts and an interaction
whose timestamp is one day after the evaluation time. -/
def badSession : VoiceSession :=
  { userId := "A", guildId := "g", channelId := "c1", channelName := "General",
    joinedAt := 120000, leftAt := some 60000 }

def futureInteraction : UserInteraction :=
  { fromUserId := "A", toUserId := "B", guildId := "g", interactionType := .mention,
    timestamp := 86400000 }

def c8Store : Store := { userInteractions := [futureInteraction], voiceSessions := [badSession] }

/-- C4: the decay weight is 1.0 for ages up to 90 days and
max(0.1, exp(-(age-90)/30)) beyond; it never increases with age and
always lies in [0.1, 1.0]. -/
theorem claim_C4_decay (a1 a2 : Rat) (h : a1 < a2) :
    timeDecayOfAge a2 ≤ timeDecayOfAge a1 ∧
    (a1 ≤ 90 → timeDecayOfAge a1 = 1) ∧
    (90 < a1 → timeDecayOfAge a1 = max 0.1 (Real.exp (-((a1 : ℝ) - 90) / 30))) ∧
    (0.1 : ℝ) ≤ timeDecayOfAge a1 ∧ timeDecayOfAge a1 ≤ 1 := by
  refine ⟨timeDecayOfAge_anti h.le, ?_, ?_, timeDecayOfAge_ge a1, timeDecayOfAge_le_one a1⟩
  · intro ha
    unfold timeDecayOfAge TIME_DECAY_DAYS
    rw [if_pos ha]
    norm_num
  · intro ha
    unfold timeDecayOfAge TIME_DECAY_DAYS
    rw [if_neg (not_le.mpr ha)]
    norm_num

/-- Witness for C4 at ages 30 and 1000 days. -/
theorem claim_C4_decay_witness :
    timeDecayOfAge 1000 ≤ timeDecayOfAge 30 ∧ timeDecayOfAge 30 = 1 ∧
    (0.1 : ℝ) ≤ timeDecayOfAge 30 ∧ timeDecayOfAge 30 ≤ 1 := by
  have h := claim_C4_decay 30 1000 (by norm_num)
  exact ⟨h.1, h.2.1 (by norm_num), h.2.2.2⟩

/-- C7: the relationship classifier is monotone in the mutual score and
its thresholds are inclusive lower bounds: 100 is strong, 50 is
moderate, 10 is weak. -/
theorem claim_C7_classifier (m1 m2 s1 s2 t1 t2 x y : ℝ) (h : m1 ≤ m2) :
    typeLevel (determineRelationshipType m1 s1 s2) ≤
      typeLevel (determineRelationshipType m2 t1 t2) ∧
    determineRelationshipType 100 x y = .strong ∧
    determineRelationshipType 50 x y = .moderate ∧
    determineRelationshipType 10 x y = .weak := by
  refine ⟨?_, ?_, ?_, ?_⟩
  · unfold determineRelationshipType
    split_ifs <;> simp [typeLevel] <;> linarith
  · unfold determineRelationshipType
    norm_num
  · unfold determineRelationshipType
    norm_num
  · unfold determineRelationshipType
    norm_num

/-- Witness for C7 at mutual scores 20 and 120. -/
theorem claim_C7_classifier_witness :
    typeLevel (determineRelationshipType 20 1 2) ≤ typeLevel (determineRelationshipType 120 3 4) ∧
    determineRelationshipType 100 5 6 = .strong ∧
    determineRelationshipType 50 5 6 = .moderate ∧
    determineRelationshipType 10 5 6 = .weak := by
  exact claim_C7_classifier 20 120 1 2 3 4 5 6 (by norm_num)

/-- C9: the two variants compute identical text-signal results (equal
reaction, mention and reply breakdown values and equal per-kind counts),
their decay functions and per-kind weights coincide, and they differ in
the classifier thresholds (mutual score 15 is strong in the older
variant but only weak in the current one). -/
theorem claim_C9_variants_text_equal (store : Store) (now : Int)
    (interactions : List UserInteraction) (voiceSessions : List VoiceSession)
    (targetUserId fromUserId guildId : String) :
    ((V0_calculateInteractionScores store now interactions voiceSessions
        targetUserId fromUserId guildId).breakdown.reactions =
      (calculateInteractionScores store now interactions voiceSessions
        targetUserId fromUserId guildId).breakdown.reactions) ∧
    ((V0_calculateInteractionScores store now interactions voiceSessions
        targetUserId fromUserId guildId).breakdown.mentions =
      (calculateInteractionScores store now interactions voiceSessions
        targetUserId fromUserId guildId).breakdown.mentions) ∧
    ((V0_calculateInteractionScores store now interactions voiceSessions
        targetUserId fromUserId guildId).breakdown.replies =
      (calculateInteractionScores store now interactions voiceSessions
        targetUserId fromUserId guildId).breakdown.replies) ∧
    ((V0_calculateInteractionScores store now interactions voiceSessions
        targetUserId fromUserId guildId).counts.reactions =
      (calculateInteractionScores store now interactions voiceSessions
        targetUserId fromUserId guildId).counts.reactions) ∧
    ((V0_calculateInteractionScores store now interactions voiceSessions
        targetUserId fromUserId guildId).counts.mentions =
      (calculateInteractionScores store now interactions voiceSessions
        targetUserId fromUserId guildId).counts.mentions) ∧
    ((V0_calculateInteractionScores store now interactions voiceSessions
        targetUserId fromUserId guildId).counts.replies =
      (calculateInteractionScores store now interactions voiceSessions
        targetUserId fromUserId guildId).counts.replies) ∧
    (∀ ts n : Int, V0_calculateTimeDecay ts n = calculateTimeDecay ts n) ∧
    (V0_SCORING_WEIGHTS.reactions = SCORING_WEIGHTS.reactions ∧
      V0_SCORING_WEIGHTS.mentions = SCORING_WEIGHTS.mentions ∧
      V0_SCORING_WEIGHTS.replies = SCORING_WEIGHTS.replies) ∧
    (V0_determineRelationshipType 15 0 0 = .strong ∧ determineRelationshipType 15 0 0 = .weak) := by
  refine ⟨rfl, rfl, rfl, rfl, rfl, rfl, fun ts n => rfl, ⟨rfl, rfl, rfl⟩, ?_, ?_⟩
  · unfold V0_determineRelationshipType
    norm_num
  · unfold determineRelationshipType
    norm_num

/-- C10: relationship analysis is symmetric in the user pair: the mutual
score is the commutative sum of the two directional totals, and the
classifier ignores its two directional-score arguments, so the
relationship type agrees as well. -/
theorem claim_C10_symmetric (store : Store) (now : Int) (a b g : String) :
    (analyzeRelationship store now a b g).mutualScore =
      (analyzeRelationship store now b a g).mutualScore ∧
    (analyzeRelationship store now a b g).relationshipType =
      (analyzeRelationship store now b a g).relationshipType ∧
    (analyzeRelationship store now a b g).mutualScore =
      (calculateAffinity store now a b g).totalScore +
        (calculateAffinity store now b a g).totalScore ∧
    (∀ m s1 s2 t1 t2 : ℝ, determineRelationshipType m s1 s2 = determineRelationshipType m t1 t2) := by
  refine ⟨?_, ?_, rfl, fun m s1 s2 t1 t2 => rfl⟩
  · simp only [analyzeRelationship]
    exact add_comm _ _
  · simp only [analyzeRelationship]
    rw [add_comm ((calculateAffinity store now a b g).totalScore)]
    exact rfl

/-- C5: the pairwise overlap step emits an interval for a session pair
exactly when the users differ, the channel matches, and the maximum of
the join times is before the minimum of the effective ends, with
duration (end - start)/60000; on the concrete scenario, sessions [0,30]
and [10,40] minutes in one channel yield the single interval [10,30] of
20 minutes, and the same sessions in different channels yield nothing. -/
theorem claim_C5_overlap_emission (now : Int) (s1 s2 : VoiceSession) (o : OverlapInterval) :
    (sessionPairOverlap now s1 s2 = some o ↔
      s1.userId ≠ s2.userId ∧ s1.channelId = s2.channelId ∧
      max s1.joinedAt s2.joinedAt < min (s1.leftAt.getD now) (s2.leftAt.getD now) ∧
      o = { channelName := s1.channelName,
            startTime := max s1.joinedAt s2.joinedAt,
            endTime := min (s1.leftAt.getD now) (s2.leftAt.getD now),
            durationMinutes := ((min (s1.leftAt.getD now) (s2.leftAt.getD now) -
              max s1.joinedAt s2.joinedAt : Int) : Rat) / 60000 }) ∧
    findOverlappingSessions 2400000 [exSessionA] [exSessionB] =
      [{ channelName := "General", startTime := 600000, endTime := 1800000,
         durationMinutes := 20 }] ∧
    findOverlappingSessions 2400000 [exSessionA] [exSessionBx] = [] := by
  have hAB : ("A" : String) ≠ "B" := by decide
  have hc : ("c1" : String) ≠ "c2" := by decide
  refine ⟨?_, ?_, ?_⟩
  · rw [sessionPairOverlap_eq_some]
    norm_num
  · norm_num [findOverlappingSessions, findOverlapsRaw, sessionPairOverlap, calculateTimeOverlap,
      mergeOverlappingTimeRanges, mergeGroups, mergeChannelGroup, mergeSweep, mergeTwo,
      sortByBool, insertSorted, startLe, firstOccurrences, List.filterMap, List.filter,
      List.isEmpty, exSessionA, exSessionB, hAB]
  · norm_num [findOverlappingSessions, findOverlapsRaw, sessionPairOverlap, calculateTimeOverlap,
      mergeOverlappingTimeRanges, mergeGroups, mergeChannelGroup, mergeSweep, mergeTwo,
      sortByBool, insertSorted, startLe, firstOccurrences, List.filterMap, List.filter,
      List.isEmpty, exSessionA, exSessionBx, hAB, hc]

/-- Witness for C5: the emission characterization applied to the
concrete session pair. -/
theorem claim_C5_overlap_emission_witness :
    sessionPairOverlap 2400000 exSessionA exSessionB =
      some { channelName := "General", startTime := 600000, endTime := 1800000,
             durationMinutes := 20 } := by
  have h := (claim_C5_overlap_emission 2400000 exSessionA exSessionB
    { channelName := "General", startTime := 600000, endTime := 1800000,
      durationMinutes := 20 }).1
  apply h.mpr
  refine ⟨by decide, by decide, by decide, ?_⟩
  norm_num [exSessionA, exSessionB]

/-- C3: for emitted overlap intervals, the merge operates per channel
(the output restricted to one channel name is exactly the sweep-merge of
that channel's inputs), every merged interval has a non-negative
duration, the merged intervals within one channel are pairwise
non-overlapping, and the triple [0,60], [10,70], [20,40] in one channel
merges to the single interval [0,70]. -/
theorem claim_C3_merge (overlaps : List OverlapInterval)
    (hwf : ∀ o ∈ overlaps, o.startTime < o.endTime ∧
      o.durationMinutes = ((o.endTime - o.startTime : Int) : Rat) / (1000 * 60)) :
    (∀ c, (mergeOverlappingTimeRanges overlaps).filter (fun o => o.channelName == c) =
        mergeChannelGroup (sortByBool startLe (overlaps.filter (fun o => o.channelName == c)))) ∧
    (∀ o ∈ mergeOverlappingTimeRanges overlaps, 0 ≤ o.durationMinutes) ∧
    (∀ c, ((mergeOverlappingTimeRanges overlaps).filter (fun o => o.channelName == c)).Pairwise
        (fun a b => a.endTime < b.startTime)) ∧
    (∀ now l1 l2, ∀ o ∈ findOverlapsRaw now l1 l2,
      o.startTime < o.endTime ∧
      o.durationMinutes = ((o.endTime - o.startTime : Int) : Rat) / (1000 * 60)) ∧
    mergeOverlappingTimeRanges [exMergeA, exMergeB, exMergeC] =
      [{ channelName := "General", startTime := 0, endTime := 4200000,
         durationMinutes := 70 }] := by
  have hok : ∀ o ∈ overlaps, o.startTime ≤ o.endTime ∧ 0 ≤ o.durationMinutes := by
    intro o ho
    rcases hwf o ho with ⟨hlt, hdur⟩
    refine ⟨hlt.le, ?_⟩
    rw [hdur]
    apply div_nonneg
    · exact_mod_cast sub_nonneg.mpr hlt.le
    · norm_num
  have hfilter : ∀ c, (mergeOverlappingTimeRanges overlaps).filter (fun o => o.channelName == c) =
      mergeChannelGroup (sortByBool startLe (overlaps.filter (fun o => o.channelName == c))) := by
    intro c
    unfold mergeOverlappingTimeRanges
    split_ifs with hemp
    · have hnil : overlaps = [] := by
        cases overlaps with
        | nil => rfl
        | cons a t => simp [List.isEmpty] at hemp
      rw [hnil]
      simp [mergeChannelGroup, sortByBool]
    · rw [mergeGroups_filter overlaps _ (firstOccurrences_nodup _) c]
      by_cases hc : c ∈ firstOccurrences (overlaps.map (fun o => o.channelName))
      · rw [if_pos hc]
      · rw [if_neg hc, filter_channel_eq_nil overlaps c hc]
        simp [sortByBool, mergeChannelGroup]
  refine ⟨hfilter, ?_, ?_, findOverlapsRaw_wf, ?_⟩
  · intro o ho
    unfold mergeOverlappingTimeRanges at ho
    split_ifs at ho with hemp
    · have hnil : overlaps = [] := by
        cases overlaps with
        | nil => rfl
        | cons a t => simp [List.isEmpty] at hemp
      rw [hnil] at ho
      simp at ho
    · exact (mergeGroups_ok overlaps hok _ o ho).2
  · intro c
    rw [hfilter c]
    exact group_pairwise overlaps hok c
  · norm_num [mergeOverlappingTimeRanges, mergeGroups, mergeChannelGroup, mergeSweep, mergeTwo,
      sortByBool, insertSorted, startLe, firstOccurrences, exMergeA, exMergeB, exMergeC,
      List.filter, List.isEmpty]

/-- Witness for C3: the merge properties at the concrete triple-overlap
scenario. -/
theorem claim_C3_merge_witness :
    (mergeOverlappingTimeRanges [exMergeA, exMergeB, exMergeC]).filter
        (fun o => o.channelName == "General") =
      mergeChannelGroup (sortByBool startLe
        ([exMergeA, exMergeB, exMergeC].filter (fun o => o.channelName == "General"))) ∧
    mergeOverlappingTimeRanges [exMergeA, exMergeB, exMergeC] =
      [{ channelName := "General", startTime := 0, endTime := 4200000,
         durationMinutes := 70 }] := by
  have h := claim_C3_merge [exMergeA, exMergeB, exMergeC] (by
    intro o ho
    simp only [List.mem_cons, List.not_mem_nil, or_false] at ho
    rcases ho with rfl | rfl | rfl
    · exact ⟨by decide, by norm_num [exMergeA]⟩
    · exact ⟨by decide, by norm_num [exMergeB]⟩
    · exact ⟨by decide, by norm_num [exMergeC]⟩)
  exact ⟨h.1 "General", h.2.2.2.2⟩

/-- Evaluation of the C1 scenario store: A has 100 total voice minutes,
20 of them with B, and the VC component comes out at 1000 points. -/
lemma c1_scenario_eval :
    (calculateAffinity c1Store 6000000 "A" "B" "g").vcDetails.relativeScore = 20 ∧
    getTotalVCTimeForUser c1Store 6000000 "A" "g" = 100 ∧
    (calculateAffinity c1Store 6000000 "A" "B" "g").breakdown.vcRelativeScore = 1000 ∧
    (calculateAffinity c1Store 6000000 "A" "B" "g").breakdown.vcRelativeScore ≠ 10 ∧
    (calculateAffinity c1Store 6000000 "A" "B" "g").totalScore = 1000 := by
  have hAB : ("A" : String) ≠ "B" := by decide
  have e1 : (("A" : String) == "A") = true := by decide
  have e2 : (("B" : String) == "A") = false := by decide
  have e3 : (("A" : String) == "B") = false := by decide
  have e4 : (("B" : String) == "B") = true := by decide
  have e5 : (("g" : String) == "g") = true := by decide
  have hvc : (calculateAffinity c1Store 6000000 "A" "B" "g").breakdown.vcRelativeScore = 1000 := by
    norm_num [calculateAffinity, calculateInteractionScores, calculateVCTimeWithUser,
      fetchVoiceSessions, fetchInteractions, getTotalVCTimeForUser, sessionDurationMinutes,
      findOverlappingSessions, findOverlapsRaw, sessionPairOverlap, calculateTimeOverlap,
      mergeOverlappingTimeRanges, mergeGroups, mergeChannelGroup, mergeSweep, mergeTwo,
      sortByBool, insertSorted, startLe, firstOccurrences, channelTimeTotals,
      kindScore, SCORING_WEIGHTS,
      List.filterMap, List.filter, List.isEmpty, c1Store, c1SessionA, c1SessionB,
      hAB, e1, e2, e3, e4, e5]
  refine ⟨?_, ?_, hvc, ?_, ?_⟩
  · norm_num [calculateAffinity, calculateInteractionScores, calculateVCTimeWithUser,
      fetchVoiceSessions, fetchInteractions, getTotalVCTimeForUser, sessionDurationMinutes,
      findOverlappingSessions, findOverlapsRaw, sessionPairOverlap, calculateTimeOverlap,
      mergeOverlappingTimeRanges, mergeGroups, mergeChannelGroup, mergeSweep, mergeTwo,
      sortByBool, insertSorted, startLe, firstOccurrences, channelTimeTotals,
      List.filterMap, List.filter, List.isEmpty, c1Store, c1SessionA, c1SessionB,
      hAB, e1, e2, e3, e4, e5]
  · norm_num [getTotalVCTimeForUser, sessionDurationMinutes, List.filter, c1Store,
      c1SessionA, c1SessionB, e1, e2, e5]
  · rw [hvc]
    norm_num
  · norm_num [calculateAffinity, calculateInteractionScores, calculateVCTimeWithUser,
      fetchVoiceSessions, fetchInteractions, getTotalVCTimeForUser, sessionDurationMinutes,
      findOverlappingSessions, findOverlapsRaw, sessionPairOverlap, calculateTimeOverlap,
      mergeOverlappingTimeRanges, mergeGroups, mergeChannelGroup, mergeSweep, mergeTwo,
      sortByBool, insertSorted, startLe, firstOccurrences, channelTimeTotals,
      kindScore, SCORING_WEIGHTS,
      List.filterMap, List.filter, List.isEmpty, c1Store, c1SessionA, c1SessionB,
      hAB, e1, e2, e3, e4, e5]

/-- C1 counterexample: with totalVcMinutes(A) = 100 and 20 co-presence
minutes with B at vcWeight 50, the code puts 20 * 50 = 1000 points into
the VC component of the total, not the 10.0 points the claim states. -/
theorem claim_C1_counterexample :
    (calculateAffinity c1Store 6000000 "A" "B" "g").vcDetails.relativeScore = 20 ∧
    getTotalVCTimeForUser c1Store 6000000 "A" "g" = 100 ∧
    (calculateAffinity c1Store 6000000 "A" "B" "g").breakdown.vcRelativeScore = 1000 ∧
    (calculateAffinity c1Store 6000000 "A" "B" "g").breakdown.vcRelativeScore ≠ 10 ∧
    (calculateAffinity c1Store 6000000 "A" "B" "g").totalScore = 1000 :=
  c1_scenario_eval

/-- C1 amended: vcRelative is coPresenceMinutes / totalVcMinutes(from) *
100 (0 when the total is 0) and the VC contribution to totalScore is
vcRelative * vcWeight with vcWeight = 50; in the scenario with
totalVcMinutes(A) = 100 and 20 merged co-presence minutes the result has
vcRelative = 20 and a VC contribution of 1000.0 points (not 10.0). -/
theorem claim_C1_amended (store : Store) (now : Int) (fromUserId toUserId guildId : String) :
    ((calculateAffinity store now fromUserId toUserId guildId).vcDetails.relativeScore =
      if getTotalVCTimeForUser store now fromUserId guildId > 0 then
        (calculateAffinity store now fromUserId toUserId guildId).vcDetails.totalMinutes /
          getTotalVCTimeForUser store now fromUserId guildId * 100
      else 0) ∧
    ((calculateAffinity store now fromUserId toUserId guildId).breakdown.vcRelativeScore =
      ((calculateAffinity store now fromUserId toUserId guildId).vcDetails.relativeScore : ℝ) * 50) ∧
    ((calculateAffinity store now fromUserId toUserId guildId).totalScore =
      (calculateAffinity store now fromUserId toUserId guildId).breakdown.reactions +
      (calculateAffinity store now fromUserId toUserId guildId).breakdown.mentions +
      (calculateAffinity store now fromUserId toUserId guildId).breakdown.replies +
      (calculateAffinity store now fromUserId toUserId guildId).breakdown.vcRelativeScore) ∧
    (calculateAffinity c1Store 6000000 "A" "B" "g").vcDetails.relativeScore = 20 ∧
    (calculateAffinity c1Store 6000000 "A" "B" "g").breakdown.vcRelativeScore = 1000 := by
  refine ⟨rfl, ?_, rfl, c1_scenario_eval.1, c1_scenario_eval.2.2.1⟩
  have h : (calculateAffinity store now fromUserId toUserId guildId).breakdown.vcRelativeScore =
      ((calculateAffinity store now fromUserId toUserId guildId).vcDetails.relativeScore : ℝ) *
        SCORING_WEIGHTS.vcRelativeScore := rfl
  rw [h]
  norm_num [SCORING_WEIGHTS]

/-- Closed form of the relative-ranking computation on a non-empty
distribution. -/
lemma calculateRelativeMetrics_eq (store : Store) (now : Int) (userId guildId : String)
    (currentScore : ℝ) (h : interactionTargetCounts store now userId guildId ≠ []) :
    calculateRelativeMetrics store now userId guildId currentScore =
      { relativeScore := min ((firstLeIndex (sortByBool (fun a b => decide (b ≤ a))
          (interactionTargetCounts store now userId guildId)) currentScore : ℝ) /
          ((sortByBool (fun a b => decide (b ≤ a))
            (interactionTargetCounts store now userId guildId)).length : ℝ) * 100) 100,
        rank := firstLeIndex (sortByBool (fun a b => decide (b ≤ a))
          (interactionTargetCounts store now userId guildId)) currentScore + 1 } := by
  unfold calculateRelativeMetrics
  rw [if_neg h]

/-- C2 counterexample: a user with five recent interactions toward a
third user but none toward the queried target gets currentScore 0, and
the code returns rank = 0 and relativeScore = -100, violating both
rank at least 1 and relativeScore within [0,100]. -/
theorem claim_C2_counterexample :
    (calculateAffinity c2Store 1000000 "A" "B" "g").rank = 0 ∧
    (calculateAffinity c2Store 1000000 "A" "B" "g").relativeScore = -100 := by
  have e1 : (("A" : String) == "A") = true := by decide
  have e2 : (("C" : String) == "B") = false := by decide
  have e3 : (("C" : String) == "C") = true := by decide
  have e4 : (("g" : String) == "g") = true := by decide
  constructor <;>
  norm_num [calculateAffinity, calculateInteractionScores, calculateVCTimeWithUser,
    fetchVoiceSessions, fetchInteractions, getTotalVCTimeForUser, sessionDurationMinutes,
    findOverlappingSessions, findOverlapsRaw, sessionPairOverlap, calculateTimeOverlap,
    mergeOverlappingTimeRanges, mergeGroups, mergeChannelGroup, mergeSweep, mergeTwo,
    sortByBool, insertSorted, startLe, firstOccurrences, channelTimeTotals,
    kindScore, SCORING_WEIGHTS, calculateRelativeMetrics, interactionTargetCounts,
    calculateTimeRange, firstLeIndex, List.findIdx?_cons, List.findIdx?_nil,
    List.filterMap, List.filter, List.isEmpty, c2Store, c2Interaction,
    e1, e2, e3, e4]

/-- C2 amended: on an empty distribution the result is
{relativeScore 0, rank 1}; on a non-empty one, rank = findIndex + 1 and
relativeScore = min(findIndex / total * 100, 100) where findIndex is the
JavaScript findIndex of the first count at most currentScore (-1 when
none, giving rank 0 and a negative relativeScore); so rank is at least 1
and relativeScore lies in [0,100] exactly when some count is at most
currentScore. -/
theorem claim_C2_amended (store : Store) (now : Int) (userId guildId : String)
    (currentScore : ℝ) :
    (interactionTargetCounts store now userId guildId = [] →
      calculateRelativeMetrics store now userId guildId currentScore =
        { relativeScore := 0, rank := 1 }) ∧
    (interactionTargetCounts store now userId guildId ≠ [] →
      (calculateRelativeMetrics store now userId guildId currentScore).rank =
        firstLeIndex (sortByBool (fun a b => decide (b ≤ a))
          (interactionTargetCounts store now userId guildId)) currentScore + 1 ∧
      (calculateRelativeMetrics store now userId guildId currentScore).relativeScore =
        min ((firstLeIndex (sortByBool (fun a b => decide (b ≤ a))
            (interactionTargetCounts store now userId guildId)) currentScore : ℝ) /
          ((sortByBool (fun a b => decide (b ≤ a))
            (interactionTargetCounts store now userId guildId)).length : ℝ) * 100) 100) ∧
    (interactionTargetCounts store now userId guildId ≠ [] →
      (∃ c ∈ sortByBool (fun a b => decide (b ≤ a))
          (interactionTargetCounts store now userId guildId), (c : ℝ) ≤ currentScore) →
      1 ≤ (calculateRelativeMetrics store now userId guildId currentScore).rank ∧
      0 ≤ (calculateRelativeMetrics store now userId guildId currentScore).relativeScore ∧
      (calculateRelativeMetrics store now userId guildId currentScore).relativeScore ≤ 100) := by
  refine ⟨?_, ?_, ?_⟩
  · intro h
    unfold calculateRelativeMetrics
    rw [if_pos h]
  · intro h
    rw [calculateRelativeMetrics_eq store now userId guildId currentScore h]
    exact ⟨rfl, rfl⟩
  · intro h hex
    rw [calculateRelativeMetrics_eq store now userId guildId currentScore h]
    rcases hex with ⟨c, hc, hle⟩
    obtain ⟨i, hfind, hlen⟩ := @findIdx?_of_exists Nat
      (fun n => decide ((n : ℝ) ≤ currentScore)) _ ⟨c, hc, decide_eq_true hle⟩
    have hfli : firstLeIndex (sortByBool (fun a b => decide (b ≤ a))
        (interactionTargetCounts store now userId guildId)) currentScore = (i : Int) := by
      unfold firstLeIndex
      rw [hfind]
    refine ⟨?_, ?_, ?_⟩
    · show 1 ≤ firstLeIndex (sortByBool (fun a b => decide (b ≤ a))
        (interactionTargetCounts store now userId guildId)) currentScore + 1
      rw [hfli]
      omega
    · show (0 : ℝ) ≤ min _ 100
      rw [hfli]
      refine le_min (by positivity) (by norm_num)
    · show min _ (100 : ℝ) ≤ 100
      exact min_le_right _ _

/-- Witness for C2: on the concrete five-interaction store with
currentScore 10 the distribution is non-empty, 5 is at most 10, and the
bounds hold. -/
theorem claim_C2_amended_witness :
    1 ≤ (calculateRelativeMetrics c2Store 1000000 "A" "g" 10).rank ∧
    0 ≤ (calculateRelativeMetrics c2Store 1000000 "A" "g" 10).relativeScore ∧
    (calculateRelativeMetrics c2Store 1000000 "A" "g" 10).relativeScore ≤ 100 := by
  have hstats : interactionTargetCounts c2Store 1000000 "A" "g" = [5] := by decide
  have hsorted : sortByBool (fun a b => decide (b ≤ a))
      (interactionTargetCounts c2Store 1000000 "A" "g") = [5] := by decide
  exact (claim_C2_amended c2Store 1000000 "A" "g" 10).2.2
    (by rw [hstats]; simp)
    ⟨5, by rw [hsorted]; simp, by norm_num⟩

/-- C6: for a user pair in a guild where the from-user has no recorded
interactions and neither user has voice sessions, calculateAffinity
still produces a result, with totalScore 0, relativeScore 0, rank 1,
daysActive 0 and null first and last interaction timestamps. -/
theorem claim_C6_zero_data (store : Store) (now : Int) (fromUserId toUserId guildId : String)
    (hI : ∀ i ∈ store.userInteractions, ¬(i.fromUserId = fromUserId ∧ i.guildId = guildId))
    (hS : ∀ s ∈ store.voiceSessions,
      ¬((s.userId = fromUserId ∨ s.userId = toUserId) ∧ s.guildId = guildId)) :
    (calculateAffinity store now fromUserId toUserId guildId).totalScore = 0 ∧
    (calculateAffinity store now fromUserId toUserId guildId).relativeScore = 0 ∧
    (calculateAffinity store now fromUserId toUserId guildId).rank = 1 ∧
    (calculateAffinity store now fromUserId toUserId guildId).timeRange.daysActive = 0 ∧
    (calculateAffinity store now fromUserId toUserId guildId).timeRange.firstInteraction = none ∧
    (calculateAffinity store now fromUserId toUserId guildId).timeRange.lastInteraction = none := by
  have hIf : store.userInteractions.filter (fun i =>
      i.fromUserId == fromUserId && i.toUserId == toUserId && i.guildId == guildId) = [] := by
    apply List.filter_eq_nil_iff.mpr
    intro i hi hcond
    simp only [Bool.and_eq_true, beq_iff_eq] at hcond
    exact hI i hi ⟨hcond.1.1, hcond.2⟩
  have hfetchI : fetchInteractions store fromUserId toUserId guildId = [] := by
    unfold fetchInteractions
    rw [hIf]
    rfl
  have hSfF : store.voiceSessions.filter (fun s =>
      s.userId == fromUserId && s.guildId == guildId) = [] := by
    apply List.filter_eq_nil_iff.mpr
    intro s hs hcond
    simp only [Bool.and_eq_true, beq_iff_eq] at hcond
    exact hS s hs ⟨Or.inl hcond.1, hcond.2⟩
  have hSfT : store.voiceSessions.filter (fun s =>
      s.userId == toUserId && s.guildId == guildId) = [] := by
    apply List.filter_eq_nil_iff.mpr
    intro s hs hcond
    simp only [Bool.and_eq_true, beq_iff_eq] at hcond
    exact hS s hs ⟨Or.inr hcond.1, hcond.2⟩
  have hfetchF : fetchVoiceSessions store fromUserId guildId = [] := by
    unfold fetchVoiceSessions
    rw [hSfF]
    rfl
  have hfetchT : fetchVoiceSessions store toUserId guildId = [] := by
    unfold fetchVoiceSessions
    rw [hSfT]
    rfl
  have htot : getTotalVCTimeForUser store now fromUserId guildId = 0 := by
    unfold getTotalVCTimeForUser
    rw [hSfF]
    rfl
  have hstats : interactionTargetCounts store now fromUserId guildId = [] := by
    unfold interactionTargetCounts
    have hrec : store.userInteractions.filter (fun i =>
        i.fromUserId == fromUserId && i.guildId == guildId &&
          decide (now - 90 * 24 * 60 * 60 * 1000 ≤ i.timestamp)) = [] := by
      apply List.filter_eq_nil_iff.mpr
      intro i hi hcond
      simp only [Bool.and_eq_true, beq_iff_eq] at hcond
      exact hI i hi ⟨hcond.1.1, hcond.1.2⟩
    rw [hrec]
    rfl
  refine ⟨?_, ?_, ?_, ?_, ?_, ?_⟩ <;>
  norm_num [calculateAffinity, calculateInteractionScores, calculateVCTimeWithUser,
    kindScore, SCORING_WEIGHTS, calculateTimeRange, calculateRelativeMetrics,
    findOverlappingSessions, findOverlapsRaw, mergeOverlappingTimeRanges,
    channelTimeTotals, sortByBool, firstOccurrences, firstLeIndex,
    List.filterMap, List.filter, List.isEmpty,
    hfetchI, hfetchF, hfetchT, htot, hstats]

/-- Witness for C6: the empty store. -/
theorem claim_C6_zero_data_witness :
    (calculateAffinity emptyStore 0 "A" "B" "g").totalScore = 0 ∧
    (calculateAffinity emptyStore 0 "A" "B" "g").relativeScore = 0 ∧
    (calculateAffinity emptyStore 0 "A" "B" "g").rank = 1 ∧
    (calculateAffinity emptyStore 0 "A" "B" "g").timeRange.daysActive = 0 ∧
    (calculateAffinity emptyStore 0 "A" "B" "g").timeRange.firstInteraction = none ∧
    (calculateAffinity emptyStore 0 "A" "B" "g").timeRange.lastInteraction = none := by
  exact claim_C6_zero_data emptyStore 0 "A" "B" "g"
    (by intro i hi; simp [emptyStore] at hi)
    (by intro s hs; simp [emptyStore] at hs)

/-- Evaluation of the C8 scenario store: the reversed session contributes
its negative duration to the total VC minutes, and the future-dated
mention is counted at full weight. -/
lemma c8_scenario_eval :
    getTotalVCTimeForUser c8Store 0 "A" "g" = -1 ∧
    (calculateAffinity c8Store 0 "A" "B" "g").breakdown.mentions = 2 ∧
    (calculateAffinity c8Store 0 "A" "B" "g").totalScore = 2 := by
  have e1 : (("A" : String) == "A") = true := by decide
  have e2 : (("B" : String) == "B") = true := by decide
  have e3 : (("B" : String) == "A") = false := by decide
  have e4 : (("g" : String) == "g") = true := by decide
  have hAB : ("A" : String) ≠ "B" := by decide
  have k1 : (InteractionKind.mention == InteractionKind.reaction) = false := by decide
  have k2 : (InteractionKind.mention == InteractionKind.mention) = true := by decide
  have k3 : (InteractionKind.mention == InteractionKind.reply) = false := by decide
  refine ⟨?_, ?_, ?_⟩ <;>
  norm_num [calculateAffinity, calculateInteractionScores, calculateVCTimeWithUser,
    fetchVoiceSessions, fetchInteractions, getTotalVCTimeForUser, sessionDurationMinutes,
    findOverlappingSessions, findOverlapsRaw, sessionPairOverlap, calculateTimeOverlap,
    mergeOverlappingTimeRanges, mergeGroups, mergeChannelGroup, mergeSweep, mergeTwo,
    sortByBool, insertSorted, startLe, firstOccurrences, channelTimeTotals,
    kindScore, SCORING_WEIGHTS, calculateRelativeMetrics, interactionTargetCounts,
    calculateTimeRange, firstLeIndex, calculateTimeDecay, timeDecayOfAge, TIME_DECAY_DAYS,
    List.findIdx?_cons, List.findIdx?_nil,
    List.filterMap, List.filter, List.isEmpty, c8Store, badSession, futureInteraction,
    e1, e2, e3, e4, hAB, k1, k2, k3]

/-- C8 counterexample: a session with leftAt before joinedAt contributes
its negative duration (-1 minute) to total VC minutes instead of being
rejected, and an interaction dated after the evaluation time contributes
full weight 2.0 to breakdown.mentions instead of nothing. -/
theorem claim_C8_counterexample :
    getTotalVCTimeForUser c8Store 0 "A" "g" = -1 ∧
    getTotalVCTimeForUser c8Store 0 "A" "g" ≠ 0 ∧
    (calculateAffinity c8Store 0 "A" "B" "g").breakdown.mentions = 2 ∧
    (calculateAffinity c8Store 0 "A" "B" "g").breakdown.mentions ≠ 0 := by
  refine ⟨c8_scenario_eval.1, ?_, c8_scenario_eval.2.1, ?_⟩
  · rw [c8_scenario_eval.1]
    norm_num
  · rw [c8_scenario_eval.2.1]
    norm_num

/-- C8 amended: a session with leftAt before joinedAt never produces an
overlap interval (in either loop position), but it is not rejected from
the total-VC-minutes aggregation, where it contributes its negative
duration; an interaction with negative decay age is not rejected either
and is counted at full weight 1.0; the overall calculateAffinity call
still completes on the remaining records (totalScore 2 on the example,
from the one future mention at weight 2). -/
theorem claim_C8_amended (now : Int) (s1 s2 : VoiceSession)
    (h : ∃ l, s1.leftAt = some l ∧ l < s1.joinedAt) :
    sessionPairOverlap now s1 s2 = none ∧
    sessionPairOverlap now s2 s1 = none ∧
    getTotalVCTimeForUser c8Store 0 "A" "g" = -1 ∧
    (calculateAffinity c8Store 0 "A" "B" "g").breakdown.mentions = 2 ∧
    (calculateAffinity c8Store 0 "A" "B" "g").totalScore = 2 := by
  obtain ⟨l, hl, hlj⟩ := h
  refine ⟨?_, ?_, c8_scenario_eval.1, c8_scenario_eval.2.1, c8_scenario_eval.2.2⟩
  · cases hv : sessionPairOverlap now s1 s2 with
    | none => rfl
    | some o =>
      exfalso
      rcases (sessionPairOverlap_eq_some now s1 s2 o).mp hv with ⟨_, _, hlt, _⟩
      rw [hl] at hlt
      simp only [Option.getD_some] at hlt
      have h1 : min l (s2.leftAt.getD now) ≤ l := min_le_left _ _
      have h2 : s1.joinedAt ≤ max s1.joinedAt s2.joinedAt := le_max_left _ _
      linarith
  · cases hv : sessionPairOverlap now s2 s1 with
    | none => rfl
    | some o =>
      exfalso
      rcases (sessionPairOverlap_eq_some now s2 s1 o).mp hv with ⟨_, _, hlt, _⟩
      rw [hl] at hlt
      simp only [Option.getD_some] at hlt
      have h1 : min (s2.leftAt.getD now) l ≤ l := min_le_right _ _
      have h2 : s1.joinedAt ≤ max s2.joinedAt s1.joinedAt := le_max_right _ _
      linarith

/-- Witness for C8: the reversed session of the scenario store. -/
theorem claim_C8_amended_witness :
    sessionPairOverlap 0 badSession exSessionB = none ∧
    getTotalVCTimeForUser c8Store 0 "A" "g" = -1 ∧
    (calculateAffinity c8Store 0 "A" "B" "g").totalScore = 2 := by
  have h := claim_C8_amended 0 badSession exSessionB ⟨60000, rfl, by decide⟩
  exact ⟨h.1, h.2.2.1, h.2.2.2.2⟩
